import Mathlib

/-!
Verification of the Pyrogram media file-id codec and transfer pipeline
(`download_media.py`, `send_video_note.py`, `photo.py`, `sticker.py`).

Blobs are modelled as lists of byte values (`List Nat`, entries < 256),
matching Python `bytes`.  Signed fixed-width fields are read and written
little-endian exactly as `struct.unpack`/`struct.pack` with formats
`"<iiqqqiiiqi"`, `"<iiqqqiiii"` and `"<iiqq"` do.
-/

namespace Pyrogram

/-- Little-endian value of a byte list (least significant byte first). -/
def leVal : List Nat → Nat
  | [] => 0
  | b :: bs => b + 256 * leVal bs

/-- Two's-complement reading of a 32-bit value, as `struct.unpack "<i"`. -/
def sInt32 (v : Nat) : Int :=
  if v < 2147483648 then (v : Int) else (v : Int) - 4294967296

/-- Two's-complement reading of a 64-bit value, as `struct.unpack "<q"`. -/
def sInt64 (v : Nat) : Int :=
  if v < 9223372036854775808 then (v : Int) else (v : Int) - 18446744073709551616

/-- Signed 32-bit little-endian field at the head of `bs`. -/
def readI32 (bs : List Nat) : Int := sInt32 (leVal (bs.take 4))

/-- Signed 64-bit little-endian field at the head of `bs`. -/
def readI64 (bs : List Nat) : Int := sInt64 (leVal (bs.take 8))

/-- Little-endian bytes of a signed 32-bit integer, as `struct.pack "<i"`. -/
def i32le (x : Int) : List Nat :=
  let v := (x % 4294967296).toNat
  [v % 256, v / 256 % 256, v / 65536 % 256, v / 16777216 % 256]

/-- Little-endian bytes of a signed 64-bit integer, as `struct.pack "<q"`. -/
def i64le (x : Int) : List Nat :=
  let v := (x % 18446744073709551616).toNat
  [v % 256, v / 256 % 256, v / 65536 % 256, v / 16777216 % 256,
   v / 4294967296 % 256, v / 1099511627776 % 256,
   v / 281474976710656 % 256, v / 72057594037927936 % 256]

lemma length_i32le (x : Int) : (i32le x).length = 4 := by simp [i32le]

lemma length_i64le (x : Int) : (i64le x).length = 8 := by simp [i64le]

lemma drop_len_append (L r : List Nat) (n : Nat) :
    (L ++ r).drop (L.length + n) = r.drop n := by
  induction L with
  | nil => simp
  | cons a t ih => simp [Nat.succ_add, ih]

lemma take_len_append (L r : List Nat) : (L ++ r).take L.length = L := by
  induction L with
  | nil => simp
  | cons a t ih => simp [ih]

lemma drop_i32le (x : Int) (r : List Nat) (n m : Nat) (h : n = 4 + m) :
    (i32le x ++ r).drop n = r.drop m := by
  subst h
  have h4 : 4 + m = (i32le x).length + m := by rw [length_i32le]
  rw [h4, drop_len_append]

lemma drop_i64le (x : Int) (r : List Nat) (n m : Nat) (h : n = 8 + m) :
    (i64le x ++ r).drop n = r.drop m := by
  subst h
  have h8 : 8 + m = (i64le x).length + m := by rw [length_i64le]
  rw [h8, drop_len_append]

lemma leVal_i32le (x : Int) : leVal (i32le x) = (x % 4294967296).toNat := by
  have h1 : 0 ≤ x % 4294967296 := Int.emod_nonneg x (by norm_num)
  have h2 : x % 4294967296 < 4294967296 := Int.emod_lt_of_pos x (by norm_num)
  simp only [i32le, leVal]
  omega

lemma leVal_i64le (x : Int) : leVal (i64le x) = (x % 18446744073709551616).toNat := by
  have h1 : 0 ≤ x % 18446744073709551616 := Int.emod_nonneg x (by norm_num)
  have h2 : x % 18446744073709551616 < 18446744073709551616 :=
    Int.emod_lt_of_pos x (by norm_num)
  simp only [i64le, leVal]
  omega

lemma readI32_i32le (x : Int) (r : List Nat)
    (h1 : -2147483648 ≤ x) (h2 : x < 2147483648) :
    readI32 (i32le x ++ r) = x := by
  have ht : (i32le x ++ r).take 4 = i32le x := by
    have := take_len_append (i32le x) r
    rwa [length_i32le] at this
  have h3 : 0 ≤ x % 4294967296 := Int.emod_nonneg x (by norm_num)
  have h4 : x % 4294967296 < 4294967296 := Int.emod_lt_of_pos x (by norm_num)
  rw [readI32, ht, leVal_i32le, sInt32]
  split <;> omega

lemma readI64_i64le (x : Int) (r : List Nat)
    (h1 : -9223372036854775808 ≤ x) (h2 : x < 9223372036854775808) :
    readI64 (i64le x ++ r) = x := by
  have ht : (i64le x ++ r).take 8 = i64le x := by
    have := take_len_append (i64le x) r
    rwa [length_i64le] at this
  have h3 : 0 ≤ x % 18446744073709551616 := Int.emod_nonneg x (by norm_num)
  have h4 : x % 18446744073709551616 < 18446744073709551616 :=
    Int.emod_lt_of_pos x (by norm_num)
  rw [readI64, ht, leVal_i64le, sInt64]
  split <;> omega

/-- The parsed file data produced by the `utils.decode` branch of
`DownloadMedia.download_media` (lines 138-182): one variant per layout, holding
exactly the fields the decoder stores into `FileData`.  `mediaType` is
`decoded[0]`, the first byte of the blob.  `thumbSize` is the code point of the
one-character string `chr(thumb_size)`. -/
inductive FileData : Type
  | photoLike (mediaType : Nat) (dcId peerId peerAccessHash volumeId localId : Int)
      (isBig : Bool)
  | docThumb (mediaType : Nat) (dcId documentId accessHash : Int) (thumbSize : Nat)
  | docPlain (mediaType : Nat) (dcId documentId accessHash : Int)
  deriving DecidableEq, Repr

/-- Outcomes of the decode step of `download_media` that are not a parsed value:
`fileIdInvalid` is the `FileIdInvalid` raised by the
`except (AssertionError, binascii.Error, struct.error)` translation;
`unknownMediaType` is the uncaught `ValueError("Unknown media type: ...")`
carrying the offending file id; `chrValueError` is the uncaught `ValueError`
raised by `chr` on an out-of-range code point; `indexError` is the uncaught
`IndexError` from `decoded[0]` on an empty blob. -/
inductive DecodeErr : Type
  | fileIdInvalid
  | unknownMediaType (fileId : List Nat)
  | chrValueError (code : Int)
  | indexError
  deriving DecidableEq, Repr

/-- The decode step of `DownloadMedia.download_media` (download_media.py lines
138-182) on a decoded blob.  The dispatch value is `decoded[0]`, the first
byte.  `struct.unpack` demands the exact byte length of its format
(56 for `"<iiqqqiiiqi"`, 48 for `"<iiqqqiiii"`, 24 for `"<iiqq"`) and a
mismatch raises `struct.error`, translated to `FileIdInvalid`.  Fields are read
at the fixed offsets of the formats; only the fields stored into `FileData` are
kept, exactly as in the source. -/
def decode (blob : List Nat) : Except DecodeErr FileData :=
  if blob = [] then .error .indexError
  else
    if blob.headD 0 = 1 then
      if blob.length = 56 then
        .ok (.photoLike (blob.headD 0)
          (readI32 (blob.drop 4))    -- dc_id
          (readI32 (blob.drop 36))   -- peer_id
          (readI64 (blob.drop 44))   -- peer_access_hash
          (readI64 (blob.drop 24))   -- volume_id
          (readI32 (blob.drop 52))   -- local_id
          (readI32 (blob.drop 32) == 3))  -- is_big = size_type == 3
      else .error .fileIdInvalid
    else if blob.headD 0 = 0 ∨ blob.headD 0 = 2 ∨ blob.headD 0 = 14 then
      if blob.length = 48 then
        if 0 ≤ readI32 (blob.drop 40) ∧ readI32 (blob.drop 40) ≤ 1114111 then
          .ok (.docThumb (blob.headD 0)
            (readI32 (blob.drop 4))            -- dc_id
            (readI64 (blob.drop 8))            -- document_id
            (readI64 (blob.drop 16))           -- access_hash
            (readI32 (blob.drop 40)).toNat)    -- thumb_size = chr(thumb_size)
        else .error (.chrValueError (readI32 (blob.drop 40)))
      else .error .fileIdInvalid
    else if blob.headD 0 = 3 ∨ blob.headD 0 = 4 ∨ blob.headD 0 = 5 ∨
        blob.headD 0 = 8 ∨ blob.headD 0 = 9 ∨ blob.headD 0 = 10 ∨
        blob.headD 0 = 13 then
      if blob.length = 24 then
        .ok (.docPlain (blob.headD 0)
          (readI32 (blob.drop 4))    -- dc_id
          (readI64 (blob.drop 8))    -- document_id
          (readI64 (blob.drop 16)))  -- access_hash
      else .error .fileIdInvalid
    else .error (.unknownMediaType blob)

/-- `struct.pack "<iiqqqiiiqi"` (the photo-like layout of tag 1). -/
def pack_iiqqqiiiqi (f1 f2 f3 f4 f5 f6 f7 f8 f9 f10 : Int) : List Nat :=
  i32le f1 ++ (i32le f2 ++ (i64le f3 ++ (i64le f4 ++ (i64le f5 ++
    (i32le f6 ++ (i32le f7 ++ (i32le f8 ++ (i64le f9 ++ i32le f10))))))))

/-- `struct.pack "<iiqqqiiii"` (the document-with-thumbnail layout of
tags 0, 2, 14), as used by `Photo._parse` in photo.py. -/
def pack_iiqqqiiii (f1 f2 f3 f4 f5 f6 f7 f8 f9 : Int) : List Nat :=
  i32le f1 ++ (i32le f2 ++ (i64le f3 ++ (i64le f4 ++ (i64le f5 ++
    (i32le f6 ++ (i32le f7 ++ (i32le f8 ++ i32le f9)))))))

/-- `struct.pack "<iiqq"` (the plain-document layout of tags 3,4,5,8,9,10,13),
as used by `Sticker._parse` in sticker.py. -/
def pack_iiqq (f1 f2 f3 f4 : Int) : List Nat :=
  i32le f1 ++ (i32le f2 ++ (i64le f3 ++ i64le f4))

/-- The file-id payload packed by `Photo._parse` (photo.py lines 82-88):
tag 2, dc_id, photo id, access hash, volume id, two constants 1 and 2, the
thumbnail type as `ord(big.type)`, and the local id. -/
def photoFileIdBlob (dcId photoId accessHash volumeId thumbTypeCode localId : Int) :
    List Nat :=
  pack_iiqqqiiii 2 dcId photoId accessHash volumeId 1 2 thumbTypeCode localId

/-- The file-id payload packed by `Sticker._parse` (sticker.py lines 129-137):
tag 8, dc_id, document id, access hash. -/
def stickerFileIdBlob (dcId stickerId accessHash : Int) : List Nat :=
  pack_iiqq 8 dcId stickerId accessHash

/-- Modelled from the spec: the encoder for the photo-like variant (tag 1) of
the MediaIdentifier (spec section 3); the source excerpt contains no tag-1
encoder, only the decoder.  The layout is the decoder's `"<iiqqqiiiqi"`; the
size-classification field is the sentinel 3 for big and another value (2)
otherwise, per section 4.1; fields the decoder discards are written as 0. -/
def encodePhotoLike (dcId peerId peerAccessHash volumeId localId : Int)
    (isBig : Bool) : List Nat :=
  pack_iiqqqiiiqi 1 dcId 0 0 volumeId (if isBig then 3 else 2) peerId 0
    peerAccessHash localId

/-- Modelled from the spec: the document-with-thumbnail encoder for the tag
values 0, 2 and 14 that share the layout (spec section 3); it generalizes the
tag-2 pack of `Photo._parse` (the only such encoder in the excerpt) to the
other tags of the group.  `thumbCode` is the code point of the one-character
thumbnail-size code. -/
def encodeDocThumb (tag dcId documentId accessHash volumeId thumbCode localId : Int) :
    List Nat :=
  pack_iiqqqiiii tag dcId documentId accessHash volumeId 1 2 thumbCode localId

/-- Modelled from the spec: the plain-document encoder for the tag values
3,4,5,8,9,10,13 that share the layout (spec section 3); it generalizes the
tag-8 pack of `Sticker._parse` to the other tags of the group. -/
def encodeDocPlain (tag dcId documentId accessHash : Int) : List Nat :=
  pack_iiqq tag dcId documentId accessHash

/-- Range of a signed 32-bit integer, the values `struct.pack "<i"` accepts. -/
def inI32 (x : Int) : Prop := -2147483648 ≤ x ∧ x < 2147483648

/-- Range of a signed 64-bit integer, the values `struct.pack "<q"` accepts. -/
def inI64 (x : Int) : Prop := -9223372036854775808 ≤ x ∧ x < 9223372036854775808

instance (x : Int) : Decidable (inI32 x) := by unfold inI32; infer_instance

instance (x : Int) : Decidable (inI64 x) := by unfold inI64; infer_instance

lemma readI32_i32le0 (x : Int) (h1 : -2147483648 ≤ x) (h2 : x < 2147483648) :
    readI32 (i32le x) = x := by
  have h := readI32_i32le x [] h1 h2
  simpa using h

lemma readI64_i64le0 (x : Int) (h1 : -9223372036854775808 ≤ x)
    (h2 : x < 9223372036854775808) : readI64 (i64le x) = x := by
  have h := readI64_i64le x [] h1 h2
  simpa using h

lemma headD_i32le (x : Int) (r : List Nat) (h0 : 0 ≤ x) (h1 : x < 256) :
    (i32le x ++ r).headD 0 = x.toNat := by
  simp only [i32le, List.cons_append, List.headD_cons]
  omega

lemma length_pack_iiqqqiiiqi (f1 f2 f3 f4 f5 f6 f7 f8 f9 f10 : Int) :
    (pack_iiqqqiiiqi f1 f2 f3 f4 f5 f6 f7 f8 f9 f10).length = 56 := by
  simp [pack_iiqqqiiiqi, i32le, i64le]

lemma length_pack_iiqqqiiii (f1 f2 f3 f4 f5 f6 f7 f8 f9 : Int) :
    (pack_iiqqqiiii f1 f2 f3 f4 f5 f6 f7 f8 f9).length = 48 := by
  simp [pack_iiqqqiiii, i32le, i64le]

lemma length_pack_iiqq (f1 f2 f3 f4 : Int) :
    (pack_iiqq f1 f2 f3 f4).length = 24 := by
  simp [pack_iiqq, i32le, i64le]

lemma decode_photoPack (dc pid s1 vol st peer s2 pah lid : Int)
    (hdc : inI32 dc) (hvol : inI64 vol) (hst : inI32 st) (hpeer : inI32 peer)
    (hpah : inI64 pah) (hlid : inI32 lid) :
    decode (pack_iiqqqiiiqi 1 dc pid s1 vol st peer s2 pah lid) =
      .ok (.photoLike 1 dc peer pah vol lid (st == 3)) := by
  have hlen := length_pack_iiqqqiiiqi 1 dc pid s1 vol st peer s2 pah lid
  have hne : ¬ pack_iiqqqiiiqi 1 dc pid s1 vol st peer s2 pah lid = [] := by
    intro h
    rw [h] at hlen
    simp at hlen
  have hhead : (pack_iiqqqiiiqi 1 dc pid s1 vol st peer s2 pah lid).headD 0 = 1 := by
    unfold pack_iiqqqiiiqi
    have h := headD_i32le 1 (i32le dc ++ (i64le pid ++ (i64le s1 ++ (i64le vol ++
      (i32le st ++ (i32le peer ++ (i32le s2 ++ (i64le pah ++ i32le lid))))))))
      (by norm_num) (by norm_num)
    simpa using h
  have fdc : readI32 ((pack_iiqqqiiiqi 1 dc pid s1 vol st peer s2 pah lid).drop 4) = dc := by
    unfold pack_iiqqqiiiqi
    rw [drop_i32le _ _ 4 0 rfl, List.drop_zero]
    exact readI32_i32le dc _ hdc.1 hdc.2
  have fvol : readI64 ((pack_iiqqqiiiqi 1 dc pid s1 vol st peer s2 pah lid).drop 24) = vol := by
    unfold pack_iiqqqiiiqi
    rw [drop_i32le _ _ 24 20 (by norm_num), drop_i32le _ _ 20 16 (by norm_num),
      drop_i64le _ _ 16 8 (by norm_num), drop_i64le _ _ 8 0 rfl, List.drop_zero]
    exact readI64_i64le vol _ hvol.1 hvol.2
  have fst : readI32 ((pack_iiqqqiiiqi 1 dc pid s1 vol st peer s2 pah lid).drop 32) = st := by
    unfold pack_iiqqqiiiqi
    rw [drop_i32le _ _ 32 28 (by norm_num), drop_i32le _ _ 28 24 (by norm_num),
      drop_i64le _ _ 24 16 (by norm_num), drop_i64le _ _ 16 8 (by norm_num),
      drop_i64le _ _ 8 0 rfl, List.drop_zero]
    exact readI32_i32le st _ hst.1 hst.2
  have fpeer : readI32 ((pack_iiqqqiiiqi 1 dc pid s1 vol st peer s2 pah lid).drop 36) = peer := by
    unfold pack_iiqqqiiiqi
    rw [drop_i32le _ _ 36 32 (by norm_num), drop_i32le _ _ 32 28 (by norm_num),
      drop_i64le _ _ 28 20 (by norm_num), drop_i64le _ _ 20 12 (by norm_num),
      drop_i64le _ _ 12 4 (by norm_num), drop_i32le _ _ 4 0 rfl, List.drop_zero]
    exact readI32_i32le peer _ hpeer.1 hpeer.2
  have fpah : readI64 ((pack_iiqqqiiiqi 1 dc pid s1 vol st peer s2 pah lid).drop 44) = pah := by
    unfold pack_iiqqqiiiqi
    rw [drop_i32le _ _ 44 40 (by norm_num), drop_i32le _ _ 40 36 (by norm_num),
      drop_i64le _ _ 36 28 (by norm_num), drop_i64le _ _ 28 20 (by norm_num),
      drop_i64le _ _ 20 12 (by norm_num), drop_i32le _ _ 12 8 (by norm_num),
      drop_i32le _ _ 8 4 (by norm_num), drop_i32le _ _ 4 0 rfl, List.drop_zero]
    exact readI64_i64le pah _ hpah.1 hpah.2
  have flid : readI32 ((pack_iiqqqiiiqi 1 dc pid s1 vol st peer s2 pah lid).drop 52) = lid := by
    unfold pack_iiqqqiiiqi
    rw [drop_i32le _ _ 52 48 (by norm_num), drop_i32le _ _ 48 44 (by norm_num),
      drop_i64le _ _ 44 36 (by norm_num), drop_i64le _ _ 36 28 (by norm_num),
      drop_i64le _ _ 28 20 (by norm_num), drop_i32le _ _ 20 16 (by norm_num),
      drop_i32le _ _ 16 12 (by norm_num), drop_i32le _ _ 12 8 (by norm_num),
      drop_i64le _ _ 8 0 rfl, List.drop_zero]
    exact readI32_i32le0 lid hlid.1 hlid.2
  unfold decode
  rw [if_neg hne, hhead, hlen, fdc, fvol, fst, fpeer, fpah, flid]
  norm_num

lemma decode_docThumbPack_core (tag dc doc ah vol f6 f7 th lid : Int)
    (ht : tag = 0 ∨ tag = 2 ∨ tag = 14)
    (hdc : inI32 dc) (hdoc : inI64 doc) (hah : inI64 ah) (hthr : inI32 th) :
    decode (pack_iiqqqiiii tag dc doc ah vol f6 f7 th lid) =
      if 0 ≤ th ∧ th ≤ 1114111 then
        .ok (.docThumb tag.toNat dc doc ah th.toNat)
      else .error (.chrValueError th) := by
  have htag0 : (0:Int) ≤ tag := by omega
  have htag1 : tag < 256 := by omega
  have hlen := length_pack_iiqqqiiii tag dc doc ah vol f6 f7 th lid
  have hne : ¬ pack_iiqqqiiii tag dc doc ah vol f6 f7 th lid = [] := by
    intro h
    rw [h] at hlen
    simp at hlen
  have hhead : (pack_iiqqqiiii tag dc doc ah vol f6 f7 th lid).headD 0 = tag.toNat := by
    unfold pack_iiqqqiiii
    exact headD_i32le tag _ htag0 htag1
  have fdc : readI32 ((pack_iiqqqiiii tag dc doc ah vol f6 f7 th lid).drop 4) = dc := by
    unfold pack_iiqqqiiii
    rw [drop_i32le _ _ 4 0 rfl, List.drop_zero]
    exact readI32_i32le dc _ hdc.1 hdc.2
  have fdoc : readI64 ((pack_iiqqqiiii tag dc doc ah vol f6 f7 th lid).drop 8) = doc := by
    unfold pack_iiqqqiiii
    rw [drop_i32le _ _ 8 4 (by norm_num), drop_i32le _ _ 4 0 rfl, List.drop_zero]
    exact readI64_i64le doc _ hdoc.1 hdoc.2
  have fah : readI64 ((pack_iiqqqiiii tag dc doc ah vol f6 f7 th lid).drop 16) = ah := by
    unfold pack_iiqqqiiii
    rw [drop_i32le _ _ 16 12 (by norm_num), drop_i32le _ _ 12 8 (by norm_num),
      drop_i64le _ _ 8 0 rfl, List.drop_zero]
    exact readI64_i64le ah _ hah.1 hah.2
  have fth : readI32 ((pack_iiqqqiiii tag dc doc ah vol f6 f7 th lid).drop 40) = th := by
    unfold pack_iiqqqiiii
    rw [drop_i32le _ _ 40 36 (by norm_num), drop_i32le _ _ 36 32 (by norm_num),
      drop_i64le _ _ 32 24 (by norm_num), drop_i64le _ _ 24 16 (by norm_num),
      drop_i64le _ _ 16 8 (by norm_num), drop_i32le _ _ 8 4 (by norm_num),
      drop_i32le _ _ 4 0 rfl, List.drop_zero]
    exact readI32_i32le th _ hthr.1 hthr.2
  have h1 : ¬ (tag.toNat = 1) := by omega
  have hcond : tag.toNat = 0 ∨ tag.toNat = 2 ∨ tag.toNat = 14 := by omega
  unfold decode
  rw [if_neg hne, hhead, hlen, fdc, fdoc, fah, fth]
  rw [if_neg h1, if_pos hcond, if_pos rfl]

lemma decode_docPlainPack (tag dc doc ah : Int)
    (ht : tag = 3 ∨ tag = 4 ∨ tag = 5 ∨ tag = 8 ∨ tag = 9 ∨ tag = 10 ∨ tag = 13)
    (hdc : inI32 dc) (hdoc : inI64 doc) (hah : inI64 ah) :
    decode (pack_iiqq tag dc doc ah) = .ok (.docPlain tag.toNat dc doc ah) := by
  have htag0 : (0:Int) ≤ tag := by omega
  have htag1 : tag < 256 := by omega
  have hlen := length_pack_iiqq tag dc doc ah
  have hne : ¬ pack_iiqq tag dc doc ah = [] := by
    intro h
    rw [h] at hlen
    simp at hlen
  have hhead : (pack_iiqq tag dc doc ah).headD 0 = tag.toNat := by
    unfold pack_iiqq
    exact headD_i32le tag _ htag0 htag1
  have fdc : readI32 ((pack_iiqq tag dc doc ah).drop 4) = dc := by
    unfold pack_iiqq
    rw [drop_i32le _ _ 4 0 rfl, List.drop_zero]
    exact readI32_i32le dc _ hdc.1 hdc.2
  have fdoc : readI64 ((pack_iiqq tag dc doc ah).drop 8) = doc := by
    unfold pack_iiqq
    rw [drop_i32le _ _ 8 4 (by norm_num), drop_i32le _ _ 4 0 rfl, List.drop_zero]
    exact readI64_i64le doc _ hdoc.1 hdoc.2
  have fah : readI64 ((pack_iiqq tag dc doc ah).drop 16) = ah := by
    unfold pack_iiqq
    rw [drop_i32le _ _ 16 12 (by norm_num), drop_i32le _ _ 12 8 (by norm_num),
      drop_i64le _ _ 8 0 rfl, List.drop_zero]
    exact readI64_i64le0 ah hah.1 hah.2
  have h1 : ¬ (tag.toNat = 1) := by omega
  have h2 : ¬ (tag.toNat = 0 ∨ tag.toNat = 2 ∨ tag.toNat = 14) := by omega
  have hcond : tag.toNat = 3 ∨ tag.toNat = 4 ∨ tag.toNat = 5 ∨ tag.toNat = 8 ∨
      tag.toNat = 9 ∨ tag.toNat = 10 ∨ tag.toNat = 13 := by omega
  unfold decode
  rw [if_neg hne, hhead, hlen, fdc, fdoc, fah]
  rw [if_neg h1, if_neg h2, if_pos hcond, if_pos rfl]

/-- The signed 32-bit little-endian integer formed by the first four bytes of a
blob: the tag the spec says selects the layout. -/
def tag32 (blob : List Nat) : Int := readI32 blob

/-- The tag values known to the decoder of `download_media`. -/
def knownTags : List Int := [0, 1, 2, 3, 4, 5, 8, 9, 10, 13, 14]

/-- The exact byte length `struct.unpack` demands for the layout selected by a
dispatch byte: 56 for the photo-like format, 48 for document-with-thumbnail,
24 for plain documents. -/
def layoutSize (b : Nat) : Nat :=
  if b = 1 then 56 else if b = 0 ∨ b = 2 ∨ b = 14 then 48 else 24

/-- C1: for every supported tag value (1; 0, 2, 14; 3, 4, 5, 8, 9, 10, 13) and
every in-range identifier of the corresponding variant, decoding the blob
produced by encoding it recovers exactly the fields the decoder extracts:
dc_id, ids, access hashes, volume/local ids, the thumbnail-size code and the
is_big classification, bit for bit. -/
theorem c1_encode_decode_roundtrip :
    (∀ (dc peer pah vol lid : Int) (isBig : Bool),
      inI32 dc → inI64 vol → inI32 peer → inI64 pah → inI32 lid →
      decode (encodePhotoLike dc peer pah vol lid isBig) =
        .ok (.photoLike 1 dc peer pah vol lid isBig))
  ∧ (∀ (tag dc doc ah vol th lid : Int),
      (tag = 0 ∨ tag = 2 ∨ tag = 14) →
      inI32 dc → inI64 doc → inI64 ah → 0 ≤ th → th ≤ 1114111 →
      decode (encodeDocThumb tag dc doc ah vol th lid) =
        .ok (.docThumb tag.toNat dc doc ah th.toNat))
  ∧ (∀ (tag dc doc ah : Int),
      (tag = 3 ∨ tag = 4 ∨ tag = 5 ∨ tag = 8 ∨ tag = 9 ∨ tag = 10 ∨ tag = 13) →
      inI32 dc → inI64 doc → inI64 ah →
      decode (encodeDocPlain tag dc doc ah) = .ok (.docPlain tag.toNat dc doc ah)) := by
  refine ⟨?_, ?_, ?_⟩
  · intro dc peer pah vol lid isBig hdc hvol hpeer hpah hlid
    have hst : inI32 (if isBig then (3:Int) else 2) := by
      cases isBig <;> simp [inI32]
    have h := decode_photoPack dc 0 0 vol (if isBig then (3:Int) else 2) peer 0 pah lid
      hdc hvol hst hpeer hpah hlid
    rw [encodePhotoLike, h]
    cases isBig <;> norm_num
  · intro tag dc doc ah vol th lid ht hdc hdoc hah hth0 hth1
    have hthr : inI32 th := by constructor <;> omega
    have h := decode_docThumbPack_core tag dc doc ah vol 1 2 th lid ht hdc hdoc hah hthr
    rw [encodeDocThumb, h, if_pos ⟨hth0, hth1⟩]
  · intro tag dc doc ah ht hdc hdoc hah
    exact decode_docPlainPack tag dc doc ah ht hdc hdoc hah

/-- Witness for C1 at concrete inputs of each variant. -/
theorem c1_encode_decode_roundtrip_witness :
    decode (encodePhotoLike 2 10 20 30 40 true) = .ok (.photoLike 1 2 10 20 30 40 true)
  ∧ decode (encodeDocThumb 2 4 100 200 7 106 9) = .ok (.docThumb 2 4 100 200 106)
  ∧ decode (encodeDocPlain 8 5 111 222) = .ok (.docPlain 8 5 111 222) :=
  ⟨c1_encode_decode_roundtrip.1 2 10 20 30 40 true (by decide) (by decide) (by decide)
      (by decide) (by decide),
   c1_encode_decode_roundtrip.2.1 2 4 100 200 7 106 9 (by decide) (by decide) (by decide)
      (by decide) (by decide) (by decide),
   c1_encode_decode_roundtrip.2.2 8 5 111 222 (by decide) (by decide) (by decide)
      (by decide)⟩

/-- C6: a photo-like blob (tag 1) decodes with is_big true exactly when the
size-classification field equals the sentinel 3, and false for every other
value of that field. -/
theorem c6_is_big_sentinel (dc pid s1 vol st peer s2 pah lid : Int)
    (hdc : inI32 dc) (hvol : inI64 vol) (hst : inI32 st) (hpeer : inI32 peer)
    (hpah : inI64 pah) (hlid : inI32 lid) :
    decode (pack_iiqqqiiiqi 1 dc pid s1 vol st peer s2 pah lid) =
      .ok (.photoLike 1 dc peer pah vol lid (if st = 3 then true else false)) := by
  rw [decode_photoPack dc pid s1 vol st peer s2 pah lid hdc hvol hst hpeer hpah hlid]
  by_cases h : st = 3 <;> simp [h]

/-- Witness for C6: size classification 3 gives is_big true, 2 gives false. -/
theorem c6_is_big_sentinel_witness :
    decode (pack_iiqqqiiiqi 1 1 0 0 5 3 7 0 9 11) = .ok (.photoLike 1 1 7 9 5 11 true)
  ∧ decode (pack_iiqqqiiiqi 1 1 0 0 5 2 7 0 9 11) = .ok (.photoLike 1 1 7 9 5 11 false) :=
  ⟨c6_is_big_sentinel 1 0 0 5 3 7 0 9 11 (by decide) (by decide) (by decide) (by decide)
      (by decide) (by decide),
   c6_is_big_sentinel 1 0 0 5 2 7 0 9 11 (by decide) (by decide) (by decide) (by decide)
      (by decide) (by decide)⟩

/-- C10: a well-framed document-with-thumbnail blob (tag 0, 2 or 14) whose
thumbnail-size field read as a signed 32-bit integer is negative or above
0x10FFFF makes the decode step fail with the uncaught ValueError of `chr`,
which is neither the structural FileIdInvalid translation nor the unknown-tag
error. -/
theorem c10_chr_out_of_range (tag dc doc ah vol f6 f7 th lid : Int)
    (ht : tag = 0 ∨ tag = 2 ∨ tag = 14)
    (hdc : inI32 dc) (hdoc : inI64 doc) (hah : inI64 ah) (hthr : inI32 th)
    (hout : th < 0 ∨ 1114111 < th) :
    decode (pack_iiqqqiiii tag dc doc ah vol f6 f7 th lid) =
      .error (.chrValueError th)
  ∧ DecodeErr.chrValueError th ≠ DecodeErr.fileIdInvalid
  ∧ ∀ b, DecodeErr.chrValueError th ≠ DecodeErr.unknownMediaType b := by
  refine ⟨?_, by simp, fun b => by simp⟩
  rw [decode_docThumbPack_core tag dc doc ah vol f6 f7 th lid ht hdc hdoc hah hthr]
  rw [if_neg (by omega)]

/-- Witness for C10: tag 2, thumbnail-size field -1. -/
theorem c10_chr_out_of_range_witness :
    decode (pack_iiqqqiiii 2 1 5 6 7 1 2 (-1) 9) = .error (.chrValueError (-1))
  ∧ DecodeErr.chrValueError (-1) ≠ DecodeErr.fileIdInvalid
  ∧ ∀ b, DecodeErr.chrValueError (-1) ≠ DecodeErr.unknownMediaType b :=
  c10_chr_out_of_range 2 1 5 6 7 1 2 (-1) 9 (by decide) (by decide) (by decide)
    (by decide) (by decide) (by decide)

/-- Counterexample to C2: the 56-byte blob starting with bytes 1,0,0,1 has the
signed 32-bit little-endian tag 16777217, which matches none of the known tag
values, yet decode does not fail: it dispatches on the first byte (1) and
successfully parses the photo-like layout. -/
theorem c2_counterexample :
    tag32 ([1, 0, 0, 1] ++ List.replicate 52 0) = 16777217
  ∧ (16777217 : Int) ∉ knownTags
  ∧ decode ([1, 0, 0, 1] ++ List.replicate 52 0) =
      .ok (.photoLike 1 0 0 0 0 0 false) := by
  refine ⟨by decide, by decide, ?_⟩
  rfl

/-- C2 (amended): the decoder dispatches on the first byte of the blob, not on
the full signed 32-bit tag.  First byte 1 selects the photo-like layout, first
byte 0, 2 or 14 the document-with-thumbnail layout, first byte 3, 4, 5, 8, 9,
10 or 13 the plain-document layout (each parse may still fail structurally on
a wrong length, and the thumbnail branch may fail on the chr conversion), and
every other first byte makes decode fail with the unknown-media-type error. -/
theorem c2_first_byte_dispatch (b0 : Nat) (rest : List Nat) :
    (b0 = 1 →
      decode (b0 :: rest) = .error .fileIdInvalid ∨
      ∃ dc peer pah vol lid big,
        decode (b0 :: rest) = .ok (.photoLike 1 dc peer pah vol lid big))
  ∧ (b0 = 0 ∨ b0 = 2 ∨ b0 = 14 →
      decode (b0 :: rest) = .error .fileIdInvalid ∨
      (∃ th, decode (b0 :: rest) = .error (.chrValueError th)) ∨
      ∃ dc doc ah th, decode (b0 :: rest) = .ok (.docThumb b0 dc doc ah th))
  ∧ (b0 = 3 ∨ b0 = 4 ∨ b0 = 5 ∨ b0 = 8 ∨ b0 = 9 ∨ b0 = 10 ∨ b0 = 13 →
      decode (b0 :: rest) = .error .fileIdInvalid ∨
      ∃ dc doc ah, decode (b0 :: rest) = .ok (.docPlain b0 dc doc ah))
  ∧ (¬ (b0 = 0 ∨ b0 = 1 ∨ b0 = 2 ∨ b0 = 3 ∨ b0 = 4 ∨ b0 = 5 ∨ b0 = 8 ∨
        b0 = 9 ∨ b0 = 10 ∨ b0 = 13 ∨ b0 = 14) →
      decode (b0 :: rest) = .error (.unknownMediaType (b0 :: rest))) := by
  have hne : ¬ (b0 :: rest) = [] := by simp
  refine ⟨?_, ?_, ?_, ?_⟩
  · intro h
    subst h
    unfold decode
    rw [if_neg hne]
    simp only [List.headD_cons]
    rw [if_pos trivial]
    by_cases hl : ((1 : Nat) :: rest).length = 56
    · rw [if_pos hl]
      right
      exact ⟨_, _, _, _, _, _, rfl⟩
    · rw [if_neg hl]
      left
      rfl
  · intro h
    unfold decode
    rw [if_neg hne]
    simp only [List.headD_cons]
    rw [if_neg (by omega), if_pos h]
    by_cases hl : (b0 :: rest).length = 48
    · rw [if_pos hl]
      by_cases hc : 0 ≤ readI32 ((b0 :: rest).drop 40) ∧
          readI32 ((b0 :: rest).drop 40) ≤ 1114111
      · rw [if_pos hc]
        right; right
        exact ⟨_, _, _, _, rfl⟩
      · rw [if_neg hc]
        right; left
        exact ⟨_, rfl⟩
    · rw [if_neg hl]
      left
      rfl
  · intro h
    unfold decode
    rw [if_neg hne]
    simp only [List.headD_cons]
    rw [if_neg (by omega), if_neg (by omega), if_pos h]
    by_cases hl : (b0 :: rest).length = 24
    · rw [if_pos hl]
      right
      exact ⟨_, _, _, rfl⟩
    · rw [if_neg hl]
      left
      rfl
  · intro h
    unfold decode
    rw [if_neg hne]
    simp only [List.headD_cons]
    rw [if_neg (by omega), if_neg (by omega), if_neg (by omega)]

/-- Witness for C2 (amended): first byte 1 with a short body is a structural
failure of the photo-like parse; first byte 7 is the unknown-media-type
error. -/
theorem c2_first_byte_dispatch_witness :
    (decode [1] = .error .fileIdInvalid ∨
      ∃ dc peer pah vol lid big,
        decode [1] = .ok (.photoLike 1 dc peer pah vol lid big))
  ∧ decode [7] = .error (.unknownMediaType [7]) :=
  ⟨(c2_first_byte_dispatch 1 []).1 rfl,
   (c2_first_byte_dispatch 7 []).2.2.2 (by decide)⟩

/-- Counterexample to C3: the 4-byte blob 1,0,0,1 has the signed 32-bit tag
16777217, unknown to the decoder, yet decode fails with the structural
FileIdInvalid error (the dispatch byte 1 selects the photo-like parse, whose
unpack fails), not with the unknown-media-type error. -/
theorem c3_counterexample :
    tag32 [1, 0, 0, 1] = 16777217
  ∧ (16777217 : Int) ∉ knownTags
  ∧ decode [1, 0, 0, 1] = .error .fileIdInvalid := by
  refine ⟨by decide, by decide, ?_⟩
  rfl

/-- C3 (amended): a blob whose FIRST BYTE matches none of the known tag values
always fails with the unknown-media-type ValueError, which carries the
offending file id, and never with the structural FileIdInvalid error. -/
theorem c3_unknown_first_byte (b0 : Nat) (rest : List Nat)
    (h : ¬ (b0 = 0 ∨ b0 = 1 ∨ b0 = 2 ∨ b0 = 3 ∨ b0 = 4 ∨ b0 = 5 ∨ b0 = 8 ∨
        b0 = 9 ∨ b0 = 10 ∨ b0 = 13 ∨ b0 = 14)) :
    decode (b0 :: rest) = .error (.unknownMediaType (b0 :: rest))
  ∧ decode (b0 :: rest) ≠ .error .fileIdInvalid := by
  have hmain : decode (b0 :: rest) = .error (.unknownMediaType (b0 :: rest)) := by
    unfold decode
    rw [if_neg (by simp)]
    simp only [List.headD_cons]
    rw [if_neg (by omega), if_neg (by omega), if_neg (by omega)]
  exact ⟨hmain, by rw [hmain]; simp⟩

/-- Witness for C3 (amended) at first byte 7. -/
theorem c3_unknown_first_byte_witness :
    decode [7, 1, 2] = .error (.unknownMediaType [7, 1, 2])
  ∧ decode [7, 1, 2] ≠ .error .fileIdInvalid :=
  c3_unknown_first_byte 7 [1, 2] (by decide)

lemma decode_short_dispatch (b0 : Nat) (rest : List Nat)
    (hknown : b0 = 0 ∨ b0 = 1 ∨ b0 = 2 ∨ b0 = 3 ∨ b0 = 4 ∨ b0 = 5 ∨ b0 = 8 ∨
      b0 = 9 ∨ b0 = 10 ∨ b0 = 13 ∨ b0 = 14)
    (hshort : (b0 :: rest).length < layoutSize b0) :
    decode (b0 :: rest) = .error .fileIdInvalid := by
  have hne : ¬ (b0 :: rest) = [] := by simp
  unfold decode
  rw [if_neg hne]
  simp only [List.headD_cons]
  by_cases h1 : b0 = 1
  · subst h1
    have hsz : layoutSize 1 = 56 := by decide
    rw [hsz] at hshort
    rw [if_pos rfl, if_neg (by omega)]
  · rw [if_neg h1]
    by_cases h2 : b0 = 0 ∨ b0 = 2 ∨ b0 = 14
    · have hsz : layoutSize b0 = 48 := by
        unfold layoutSize
        rw [if_neg h1, if_pos h2]
      rw [hsz] at hshort
      rw [if_pos h2, if_neg (by omega)]
    · have h3 : b0 = 3 ∨ b0 = 4 ∨ b0 = 5 ∨ b0 = 8 ∨ b0 = 9 ∨ b0 = 10 ∨ b0 = 13 := by
        omega
      have hsz : layoutSize b0 = 24 := by
        unfold layoutSize
        rw [if_neg h1, if_neg h2]
      rw [hsz] at hshort
      rw [if_neg h2, if_pos h3, if_neg (by omega)]

/-- C4: a blob shorter than the fixed layout its tag demands always fails with
the structural FileIdInvalid error (the `struct.error` translation) and never
yields a value built from truncated fields.  Stated both for the dispatch byte
(the first byte, which is how the decoder reads the tag) and for the signed
32-bit tag of a byte-valued blob of length at least 4. -/
theorem c4_short_blob_fails_structurally :
    (∀ (b0 : Nat) (rest : List Nat),
      (b0 = 0 ∨ b0 = 1 ∨ b0 = 2 ∨ b0 = 3 ∨ b0 = 4 ∨ b0 = 5 ∨ b0 = 8 ∨
        b0 = 9 ∨ b0 = 10 ∨ b0 = 13 ∨ b0 = 14) →
      (b0 :: rest).length < layoutSize b0 →
      decode (b0 :: rest) = .error .fileIdInvalid)
  ∧ (∀ blob : List Nat, (∀ b ∈ blob, b < 256) → 4 ≤ blob.length →
      tag32 blob ∈ knownTags → blob.length < layoutSize (tag32 blob).toNat →
      decode blob = .error .fileIdInvalid) := by
  refine ⟨decode_short_dispatch, ?_⟩
  intro blob hbytes hlen4 hmem hshort
  match blob, hlen4 with
  | b0 :: b1 :: b2 :: b3 :: r, _ =>
    have hb0 : b0 < 256 := hbytes b0 (by simp)
    have hb1 : b1 < 256 := hbytes b1 (by simp)
    have hb2 : b2 < 256 := hbytes b2 (by simp)
    have hb3 : b3 < 256 := hbytes b3 (by simp)
    have htag : tag32 (b0 :: b1 :: b2 :: b3 :: r) =
        sInt32 (b0 + 256 * (b1 + 256 * (b2 + 256 * (b3 + 256 * 0)))) := by
      rw [tag32, readI32]
      congr 1
    simp only [knownTags, List.mem_cons, List.not_mem_nil, or_false] at hmem
    rw [htag] at hmem hshort
    rw [sInt32] at hmem hshort
    have hb0eq : (sInt32 (b0 + 256 * (b1 + 256 * (b2 + 256 * (b3 + 256 * 0))))).toNat
        = b0 := by
      rw [sInt32]
      split at hmem <;> omega
    rw [sInt32] at hb0eq
    rw [hb0eq] at hshort
    have hknown : b0 = 0 ∨ b0 = 1 ∨ b0 = 2 ∨ b0 = 3 ∨ b0 = 4 ∨ b0 = 5 ∨ b0 = 8 ∨
        b0 = 9 ∨ b0 = 10 ∨ b0 = 13 ∨ b0 = 14 := by
      split at hmem <;> omega
    exact decode_short_dispatch b0 (b1 :: b2 :: b3 :: r) hknown hshort

/-- Witness for C4: a 10-byte blob with tag byte 8 (plain-document layout,
24 bytes required) fails with FileIdInvalid. -/
theorem c4_short_blob_fails_structurally_witness :
    decode [8, 0, 0, 0, 1, 2, 3, 4, 5, 6] = .error .fileIdInvalid
  ∧ decode [1, 0, 0, 0, 9] = .error .fileIdInvalid :=
  ⟨c4_short_blob_fails_structurally.1 8 [0, 0, 0, 1, 2, 3, 4, 5, 6] (by decide) (by decide),
   c4_short_blob_fails_structurally.2 [1, 0, 0, 0, 9] (by decide) (by decide) (by decide)
     (by decide)⟩

/-- One outcome of the enclosing `messages.SendMedia` attempt inside the retry
loop of `SendVideoNote.send_video_note` (send_video_note.py lines 145-172):
`response msg` is a transport reply whose update list either contains a
new-message update carrying the parsed message (`some m`) or no matching
update (`none`); `filePartMissing x` is the `FilePartMissing` service error
with part index `x`; `stopTransmission` is the cooperative
`BaseClient.StopTransmission` cancellation; `otherError e` is any other
exception, which the loop does not catch. -/
inductive SendOutcome : Type
  | response (msg : Option Nat)
  | filePartMissing (x : Nat)
  | stopTransmission
  | otherError (e : Nat)
  deriving DecidableEq, Repr

/-- How `send_video_note` terminates: a parsed `Message`, the `return None` of
the `except BaseClient.StopTransmission` handler, a propagated exception, or
(for the model only) the end of the outcome script with the loop still
running. -/
inductive LoopResult : Type
  | message (m : Nat)
  | noResult
  | err (e : Nat)
  | scriptEnded
  deriving DecidableEq, Repr

/-- The `while True` retry loop of `send_video_note` over a script of send
outcomes, consuming one outcome per `self.send` attempt.  The first component
records, in order, the part indices `e.x` for which the loop called
`self.save_file(video_note, file_id=file.id, file_part=e.x)` before retrying;
on a response with a matching update it returns the parsed message; on a
response with no matching update it falls through and reissues the send;
`StopTransmission` reaches the outer handler, which returns None; any other
exception propagates to the caller. -/
def sendLoop : List SendOutcome → List Nat × LoopResult
  | [] => ([], .scriptEnded)
  | .response none :: restOutcomes => sendLoop restOutcomes
  | .response (some m) :: _ => ([], .message m)
  | .filePartMissing x :: restOutcomes =>
      ((x :: (sendLoop restOutcomes).1), (sendLoop restOutcomes).2)
  | .stopTransmission :: _ => ([], .noResult)
  | .otherError e :: _ => ([], .err e)

/-- C5: when the enclosing send fails exactly once with a missing-part signal
for chunk i, the protocol resends exactly chunk i (one chunk-save call with
that part index, no other chunk and not the whole file) and the reissued send
then returns the message; a different, non-retryable error instead propagates
to the caller without any resend. -/
theorem c5_missing_part_resend :
    (∀ (i m : Nat) (rest : List SendOutcome),
      sendLoop (.filePartMissing i :: .response (some m) :: rest) = ([i], .message m))
  ∧ (∀ (e : Nat) (rest : List SendOutcome),
      sendLoop (.otherError e :: rest) = ([], .err e)) := by
  constructor
  · intro i m rest
    simp [sendLoop]
  · intro e rest
    rfl

/-- Terminal outcomes of the download worker for one job. -/
inductive WorkerOutcome : Type
  | completed (path : String)
  | cancelled
  | failed
  deriving DecidableEq, Repr

/-- Modelled from the spec: the download worker (outside the excerpt, which
contains only the enqueue and blocking wait of download_media lines 184-226)
publishes the destination path into the job's single result cell only on
success; on cooperative cancellation, and on failure, it sets the `done` event
without publishing a path, so the cell keeps its initial None. -/
def workerPublish : WorkerOutcome → Option String
  | .completed p => some p
  | .cancelled => none
  | .failed => none

/-- The blocking caller of `download_media` (lines 184-226): it initializes
`path = [None]`, enqueues the job, waits on `done`, and returns `path[0]` —
whatever the worker published, with no exception raised on the wait path. -/
def downloadBlockingResult (outcome : WorkerOutcome) : Option String :=
  workerPublish outcome

/-- C8: a transfer stopped by the cooperative cancellation signal yields the
absence of a result, not an error: `send_video_note` returns None from its
StopTransmission handler instead of a Message, and a blocked `download_media`
caller observes an absent result path. -/
theorem c8_cancellation_yields_no_result :
    (∀ rest : List SendOutcome,
      sendLoop (.stopTransmission :: rest) = ([], .noResult))
  ∧ downloadBlockingResult .cancelled = none :=
  ⟨fun _ => rfl, rfl⟩

/-- Python truthiness of `data.date or time.time()` in download_media line 215:
a missing (None) or zero date falls back to the current time. -/
def pyDate (date : Option Int) (now : Int) : Int :=
  match date with
  | some d => if d = 0 then now else d
  | none => now

/-- The extension chain of download_media lines 195-211.  `guessed` is the
result of `self.guess_extension(data.mime_type)` (`none` when there is no
guess); MIME guessing is an external collaborator per the spec. -/
def extensionFor (mediaType : Nat) (guessed : Option String) : String :=
  if mediaType = 0 ∨ mediaType = 1 ∨ mediaType = 2 ∨ mediaType = 14 then ".jpg"
  else if mediaType = 3 then guessed.getD ".ogg"
  else if mediaType = 4 ∨ mediaType = 10 ∨ mediaType = 13 then guessed.getD ".mp4"
  else if mediaType = 5 then guessed.getD ".zip"
  else if mediaType = 8 then guessed.getD ".webp"
  else if mediaType = 9 then guessed.getD ".mp3"
  else ".unknown"

/-- The file name synthesized by download_media lines 213-218 when the caller
supplied none: the format string is
`"media_type_str underscore timestamp underscore rnd_id extension"` with the
three separators written out.  The media-kind label `MEDIA_TYPE_ID[...]`, the
strftime timestamp formatting and `self.rnd_id()` live outside the excerpt and
enter as the parameters `mediaTypeStr`, `formatTs` and `rndId`. -/
def makeFileName (mediaTypeStr : String) (formatTs : Int → String)
    (date : Option Int) (now : Int) (rndId : Nat) (mediaType : Nat)
    (guessed : Option String) : String :=
  mediaTypeStr ++ "_" ++ formatTs (pyDate date now) ++ "_" ++ toString rndId ++
    extensionFor mediaType guessed

/-- The fixed per-kind default extensions the spec's mapping assigns to the
kinds that honour the MIME guess (all decodable kinds except 0, 1, 2, 14). -/
def defaultExt (mediaType : Nat) : String :=
  if mediaType = 3 then ".ogg"
  else if mediaType = 4 ∨ mediaType = 10 ∨ mediaType = 13 then ".mp4"
  else if mediaType = 5 then ".zip"
  else if mediaType = 8 then ".webp"
  else ".mp3"

/-- C7: with no caller-supplied file name the synthesized name is the
media-kind label, a timestamp formatted from the declared date (current time
when no date is known), a process-unique random suffix, and an extension;
kinds 0, 1, 2, 14 always get the fixed ".jpg" regardless of any MIME guess,
every other decodable kind gets the MIME-guessed extension with its fixed
per-kind default as fallback. -/
theorem c7_file_name_synthesis (mediaTypeStr : String) (formatTs : Int → String)
    (date : Option Int) (now : Int) (rndId : Nat) (mediaType : Nat)
    (guessed : Option String)
    (hm : mediaType = 0 ∨ mediaType = 1 ∨ mediaType = 2 ∨ mediaType = 3 ∨
      mediaType = 4 ∨ mediaType = 5 ∨ mediaType = 8 ∨ mediaType = 9 ∨
      mediaType = 10 ∨ mediaType = 13 ∨ mediaType = 14) :
    makeFileName mediaTypeStr formatTs date now rndId mediaType guessed =
      mediaTypeStr ++ "_" ++ formatTs (pyDate date now) ++ "_" ++ toString rndId ++
        (if mediaType = 0 ∨ mediaType = 1 ∨ mediaType = 2 ∨ mediaType = 14
         then ".jpg"
         else guessed.getD (defaultExt mediaType)) := by
  rw [makeFileName]
  rcases hm with h|h|h|h|h|h|h|h|h|h|h <;> subst h <;>
    norm_num [extensionFor, defaultExt]

/-- Witness for C7: a thumbnailed-document kind (2) ignores the MIME guess and
gets ".jpg"; an audio kind (9) takes the MIME-guessed extension. -/
theorem c7_file_name_synthesis_witness :
    makeFileName "photo" (fun _ => "ts") (some 5) 9 42 2 (some ".png") =
      "photo_ts_42.jpg"
  ∧ makeFileName "audio" (fun _ => "ts") none 9 42 9 (some ".flac") =
      "audio_ts_42.flac" := by
  have h1 := c7_file_name_synthesis "photo" (fun _ => "ts") (some 5) 9 42 2
    (some ".png") (by norm_num)
  have h2 := c7_file_name_synthesis "audio" (fun _ => "ts") none 9 42 9
    (some ".flac") (by norm_num)
  exact ⟨by rw [h1]; rfl, by rw [h2]; rfl⟩

/-- Index of the last slash in a character list, as `p.rfind("/")` of
posixpath.split (none when there is no slash). -/
def rfindSlash : List Char → Option Nat
  | [] => none
  | c :: cs =>
    match rfindSlash cs with
    | some k => some (k + 1)
    | none => if c = '/' then some 0 else none

/-- Whether every character is a slash (`head == sep * len(head)`). -/
def allSlash (cs : List Char) : Bool := cs.all (fun c => c == '/')

/-- Strip trailing slashes, as `head.rstrip(sep)`. -/
def rstripSlash (cs : List Char) : List Char :=
  ((cs.reverse).dropWhile (fun c => c == '/')).reverse

/-- posixpath.split, called by `os.path.split(file_name)` in download_media
line 187: cut after the last slash, then strip trailing slashes from the head
unless the head is empty or all slashes. -/
def posixSplit (p : String) : String × String :=
  let cs := p.data
  let i := match rfindSlash cs with
    | some k => k + 1
    | none => 0
  let head := cs.take i
  let tail := cs.drop i
  let head2 :=
    if head.isEmpty = false && allSlash head = false then rstripSlash head else head
  (String.mk head2, String.mk tail)

/-- posixpath.isabs, called by `os.path.isabs(file_name)` in line 190: a path
is absolute exactly when it starts with a slash. -/
def isabs (p : String) : Bool :=
  match p.data with
  | [] => false
  | c :: _ => c == '/'

/-- pathlib's slash operator `self.PARENT_DIR / x` in line 191, modelled as
separator concatenation with an absolute right operand replacing the left;
pathlib's normalization of duplicate and trailing separators is not
modelled. -/
def pathJoin (a b : String) : String := if isabs b then b else a ++ "/" ++ b

/-- Python string truthiness: `a or b`. -/
def pyOrS (a b : String) : String := if a = "" then b else a

/-- The default download root of download_media.py line 31. -/
def DEFAULT_DOWNLOAD_DIR : String := "downloads/"

/-- Lines 187-191 of download_media.py: split the caller's `file_name`
argument into a directory and a name, fall back to the media's own file name
(empty when absent), and, when the resulting name is not an absolute path,
resolve the directory as `self.PARENT_DIR / (directory or
DEFAULT_DOWNLOAD_DIR)`.  Returns the resolved (directory, file name). -/
def resolveDest (parentDir fileNameArg dataFileName : String) : String × String :=
  let split := posixSplit fileNameArg
  let fileName := pyOrS split.2 dataFileName
  let directory :=
    if isabs fileName = false then
      pathJoin parentDir (pyOrS split.1 DEFAULT_DOWNLOAD_DIR)
    else split.1
  (directory, fileName)

/-- C9: for a download whose resolved file name is not absolute, the
destination directory is the fixed "downloads/" root under the client's
parent directory when the caller supplied no directory component, and the
caller's relative directory under the parent directory otherwise. -/
theorem c9_directory_resolution (parentDir arg dataName : String)
    (hrel : isabs (resolveDest parentDir arg dataName).2 = false) :
    ((posixSplit arg).1 = "" →
      (resolveDest parentDir arg dataName).1 =
        parentDir ++ "/" ++ DEFAULT_DOWNLOAD_DIR)
  ∧ ((posixSplit arg).1 ≠ "" → isabs (posixSplit arg).1 = false →
      (resolveDest parentDir arg dataName).1 =
        parentDir ++ "/" ++ (posixSplit arg).1) := by
  have h2 : (resolveDest parentDir arg dataName).2 =
      pyOrS (posixSplit arg).2 dataName := rfl
  have h1 : (resolveDest parentDir arg dataName).1 =
      if isabs (pyOrS (posixSplit arg).2 dataName) = false then
        pathJoin parentDir (pyOrS (posixSplit arg).1 DEFAULT_DOWNLOAD_DIR)
      else (posixSplit arg).1 := rfl
  rw [h2] at hrel
  constructor
  · intro hd
    rw [h1, if_pos hrel, hd]
    rfl
  · intro hd habs
    rw [h1, if_pos hrel, pyOrS, if_neg hd, pathJoin, if_neg (by simp [habs])]

/-- Witness for C9: a bare name goes to the default downloads root under the
parent directory; a relative directory goes under the parent directory. -/
theorem c9_directory_resolution_witness :
    (resolveDest "work" "pic.jpg" "").1 = "work" ++ "/" ++ DEFAULT_DOWNLOAD_DIR
  ∧ (resolveDest "work" "mydir/pic.jpg" "").1 = "work" ++ "/" ++ "mydir" := by
  constructor
  · exact (c9_directory_resolution "work" "pic.jpg" "" (by decide)).1 (by decide)
  · have h := (c9_directory_resolution "work" "mydir/pic.jpg" "" (by decide)).2
      (by decide) (by decide)
    rw [h]
    rfl

end Pyrogram
